import Mathlib

/-!
Shallow embedding of the `PRCommentHandler.Handle` webhook handlers of the
go-githubapp example bot.  The repository contains three near-duplicate
variants of the handler:

* `example/issue_comment.go`, second variant (lines 158-343): the full
  `/create-branch` sequence (get ref, create ref, create tree, get commit,
  create commit, update ref) and the `/create-pr` sequence;
* `example/issue_comment.go`, first variant (lines 39-119): the same prologue
  with only the `/testpr` block;
* `unnamed/part_000`: the same prologue with a shortened `/create-branch`
  block (get ref, create ref) and the same `/testpr` block.

All three share a verbatim-identical prologue (payload parsing, action
filter, installation client, bot-author filter, slash-command classification,
acknowledgement comment).  The prologue is embedded once (`HandleWith`) and
instantiated with the three dispatch bodies.

The remote GitHub API is modelled as a `Gateway` of response functions; a run
produces a `HandleResult`: the outcome at the handler boundary (`ok` = the Go
function returns nil, `hardError` = it returns a non-nil error, `panicked` = a
runtime panic escapes it), the ordered list of gateway calls with their full
arguments, and the error-severity log entries.  The Go code never reads the
wall clock (no `time.Now`); the ambient clock is threaded as an explicit
`now` parameter so that clock-independence is provable rather than implicit.
-/

namespace GithubappBot

/-- Word character as matched by Go's RE2 `\w` (ASCII letters, digits, `_`). -/
def isWordChar (c : Char) : Bool :=
  c.isAlpha || c.isDigit || c = '_'

/-- Residual language of the regex `\w+(?:-\w+)*` after its first word
character: sequences over word chars and `-` in which every `-` is
immediately followed by a word character. -/
def tokTail : List Char → Bool
  | [] => true
  | [c] => isWordChar c
  | c :: d :: rest =>
    if isWordChar c then tokTail (d :: rest)
    else if c = '-' then isWordChar d && tokTail rest
    else false

/-- Greedy matcher for `tokTail`: the characters the Go regexp engine
consumes after `/\w` when matching `^\/\w+(?:-\w+)*` (greedy, and greedy
equals longest here because word characters and `-` are disjoint). -/
def matchTail : List Char → List Char
  | [] => []
  | [c] => if isWordChar c then [c] else []
  | c :: d :: rest =>
    if isWordChar c then c :: matchTail (d :: rest)
    else if c = '-' then
      (if isWordChar d then c :: d :: matchTail rest else [])
    else []

/-- `regexp.MustCompile("^\\/\\w+(?:-\\w+)*").FindString`: `none` models the
empty-string result (no match), `some m` the matched token.  Anchored, so a
match can only start at position 0. -/
def findCmd : List Char → Option (List Char)
  | [] => none
  | c :: t =>
    if c = '/' then
      match t with
      | [] => none
      | d :: t' => if isWordChar d then some ('/' :: d :: matchTail t') else none
    else none

/-- Lines 79-84: `slash_command` stays the sentinel `"None"` unless
`FindString` returns a non-empty match. -/
def slashCommand (body : String) : String :=
  match findCmd body.data with
  | some m => String.mk m
  | none => "None"

/-- `a` is a prefix of `b` (character-list comparison). -/
def leadMatch : List Char → List Char → Bool
  | [], _ => true
  | _ :: _, [] => false
  | a :: as, b :: bs => a == b && leadMatch as bs

/-- `strings.HasSuffix s suf`. -/
def hasSuffix (s suf : String) : Bool :=
  leadMatch suf.data.reverse s.data.reverse

/-- Spec-side shape: one or more word characters (`\w+`). -/
def IsWordRun (w : List Char) : Prop :=
  w ≠ [] ∧ ∀ c ∈ w, isWordChar c = true

/-- Spec-side shape of the start-anchored pattern: a leading slash, one or
more word characters, then zero or more groups of hyphen plus word
characters. -/
def IsCmdToken (l : List Char) : Prop :=
  ∃ (w : List Char) (gs : List (List Char)),
    l = '/' :: (w ++ gs.flatten) ∧ IsWordRun w ∧
      ∀ g ∈ gs, ∃ u, g = '-' :: u ∧ IsWordRun u

/-- Executable form of `IsCmdToken`. -/
def isTok : List Char → Bool
  | [] => false
  | c :: t =>
    if c = '/' then
      match t with
      | [] => false
      | d :: t' => isWordChar d && tokTail t'
    else false

/-- Gateway error (the Go `error` value, kept opaque as its message). -/
abbrev GErr := String

/-- The fields of `github.IssueCommentEvent` the handler reads. -/
structure IssueCommentEvent where
  action : String
  repoOwner : String
  repoName : String
  prNum : Nat
  author : String
  body : String
deriving DecidableEq

/-- A reference as returned by the gateway (`GetRef`/`CreateRef` responses):
the symbolic name and the object hash it points at. -/
structure RefInfo where
  refName : String
  objSHA : String
deriving DecidableEq

/-- A `github.Reference` request object; `none` models a field the Go code
leaves unset (nil pointer). -/
structure Reference where
  refName : Option String
  url : Option String
  objType : Option String
  objSHA : Option String
  nodeID : Option String
deriving DecidableEq

/-- A `github.TreeEntry` as built by the `/create-branch` block (all four
fields are set there). -/
structure TreeEntry where
  path : String
  mode : String
  entryType : String
  content : String
deriving DecidableEq

/-- A tree as returned by `CreateTree` (the code only reads its SHA and
embeds the whole object as the commit's tree). -/
structure TreeResp where
  sha : String
deriving DecidableEq

/-- A commit as returned by `GetCommit`/`CreateCommit`: its own hash and the
hash of the tree it points at (`commit.Tree.SHA`; never read by the code). -/
structure CommitResp where
  sha : String
  treeSHA : String
deriving DecidableEq

/-- `github.CommitAuthor`: name, email and timestamp. -/
structure CommitAuthor where
  name : String
  email : String
  date : Nat
deriving DecidableEq

/-- A `github.Commit` request object as built at lines 284-289; `author` is
`none` because the Go code never sets the `Author` field. -/
structure CommitObj where
  sha : Option String
  message : Option String
  author : Option CommitAuthor
  tree : Option TreeResp
  parents : List CommitResp
deriving DecidableEq

/-- `github.NewPullRequest` request object. -/
structure NewPullRequest where
  title : String
  head : String
  base : String
  body : String
deriving DecidableEq

/-- A pull request as returned by `PullRequests.Create`. -/
structure PullRequest where
  number : Nat
  title : String
  htmlURL : String
deriving DecidableEq

/-- One remote gateway call together with its full arguments. -/
inductive GCall where
  | createComment (owner repo : String) (num : Nat) (body : String)
  | getRef (owner repo refName : String)
  | createRef (owner repo : String) (req : Reference)
  | createTree (owner repo baseTree : String) (entries : List TreeEntry)
  | getCommit (owner repo sha : String)
  | createCommit (owner repo : String) (req : CommitObj)
  | updateRef (owner repo : String) (ref : RefInfo) (force : Bool) (sha : String)
  | createPR (owner repo : String) (req : NewPullRequest)
deriving DecidableEq

/-- The remote collaborator: a response for every call the handler can make,
plus the installation-client constructor. -/
structure Gateway where
  newInstallationClient : Except GErr Unit
  createComment : String → String → Nat → String → Except GErr Unit
  getRef : String → String → String → Except GErr RefInfo
  createRef : String → String → Reference → Except GErr RefInfo
  createTree : String → String → String → List TreeEntry → Except GErr TreeResp
  getCommit : String → String → String → Except GErr CommitResp
  createCommit : String → String → CommitObj → Except GErr CommitResp
  updateRef : String → String → RefInfo → Bool → String → Except GErr RefInfo
  createPR : String → String → NewPullRequest → Except GErr PullRequest

/-- What happens at the handler boundary: the Go function returns nil
(`ok`), returns a non-nil error (`hardError`), or a panic escapes it
(`panicked`). -/
inductive Outcome where
  | ok
  | hardError
  | panicked
deriving DecidableEq

/-- Result of one handler run: boundary outcome, ordered gateway calls, and
error-severity log entries (message together with the wrapped error). -/
structure HandleResult where
  outcome : Outcome
  calls : List GCall
  errLogs : List (String × GErr)
deriving DecidableEq

/-- Lines 252-264: the fixed, hardcoded tree entries. -/
def treeEntries : List TreeEntry :=
  [⟨"file1.txt", "100644", "blob", "file content"⟩,
   ⟨"file2.txt", "100644", "blob", "another file content"⟩]

/-- Lines 236-241: the new-branch request, pointing the fixed name at the
base branch's object hash. -/
def newBranchReq (baseBranchRef : RefInfo) : Reference :=
  { refName := some "refs/heads/my-bot-PR-branch"
    url := none
    objType := none
    objSHA := some baseBranchRef.objSHA
    nodeID := none }

/-- Lines 284-289: the new-commit request.  `SHA` is (oddly) set to the new
tree's hash, `Author` is never set, the parents are exactly the fetched base
commit. -/
def newCommitReq (newTreeRef : TreeResp) (latestCommitRef : CommitResp) : CommitObj :=
  { sha := some newTreeRef.sha
    message := some "This is a commit by bot"
    author := none
    tree := some newTreeRef
    parents := [latestCommitRef] }

/-- The `/create-branch` block of the second handler variant (lines
217-306).  Every failed call logs and `return nil`s, abandoning the rest of
the sequence. -/
def createBranchSeq (owner repo : String) (gw : Gateway) : HandleResult :=
  let c1 := GCall.getRef owner repo "heads/main"
  match gw.getRef owner repo "heads/main" with
  | .error e => ⟨.ok, [c1], [("Failed to get current reference", e)]⟩
  | .ok baseBranchRef =>
    let c2 := GCall.createRef owner repo (newBranchReq baseBranchRef)
    match gw.createRef owner repo (newBranchReq baseBranchRef) with
    | .error e => ⟨.ok, [c1, c2], [("Failed to create new branch", e)]⟩
    | .ok newBranchRef =>
      let c3 := GCall.createTree owner repo baseBranchRef.objSHA treeEntries
      match gw.createTree owner repo baseBranchRef.objSHA treeEntries with
      | .error e => ⟨.ok, [c1, c2, c3], [("Failed to create new tree", e)]⟩
      | .ok newTreeRef =>
        let c4 := GCall.getCommit owner repo baseBranchRef.objSHA
        match gw.getCommit owner repo baseBranchRef.objSHA with
        | .error e => ⟨.ok, [c1, c2, c3, c4], [("Failed to get latest commit", e)]⟩
        | .ok latestCommitRef =>
          let c5 := GCall.createCommit owner repo (newCommitReq newTreeRef latestCommitRef)
          match gw.createCommit owner repo (newCommitReq newTreeRef latestCommitRef) with
          | .error e => ⟨.ok, [c1, c2, c3, c4, c5], [("Failed to create new commit", e)]⟩
          | .ok newCommitRef =>
            let c6 := GCall.updateRef owner repo newBranchRef true newCommitRef.sha
            match gw.updateRef owner repo newBranchRef true newCommitRef.sha with
            | .error e => ⟨.ok, [c1, c2, c3, c4, c5, c6], [("Failed to update reference", e)]⟩
            | .ok _ => ⟨.ok, [c1, c2, c3, c4, c5, c6], []⟩

/-- The `/create-pr` block (lines 308-340): create the PR, then post the
link comment; each failure logs, and only the PR-creation failure aborts. -/
def createPRSeq (owner repo : String) (prNum : Nat) (gw : Gateway) : HandleResult :=
  let newPRObj : NewPullRequest :=
    ⟨"PR created by bot", "my-bot-PR-branch", "main",
     "Please, merge the content of this PR :rocket:"⟩
  let c1 := GCall.createPR owner repo newPRObj
  match gw.createPR owner repo newPRObj with
  | .error e => ⟨.ok, [c1], [("Failed to create pull request", e)]⟩
  | .ok newPRRef =>
    let msg := "The PR has been created, [click here to check it](" ++
      newPRRef.htmlURL ++ ") :eyes:"
    let c2 := GCall.createComment owner repo prNum msg
    match gw.createComment owner repo prNum msg with
    | .error e => ⟨.ok, [c1, c2], [("Failed to comment on pull request", e)]⟩
    | .ok _ => ⟨.ok, [c1, c2], []⟩

/-- The `/testpr` block (first variant lines 98-116, `part_000` lines
139-157): after a failed `PullRequests.Create` the code logs but does NOT
return, then dereferences `*newPR.Number` on the nil result — a runtime
panic that escapes the handler, modelled as `.panicked`. -/
def testprSeq (owner repo : String) (gw : Gateway) : HandleResult :=
  let newPRContent : NewPullRequest :=
    ⟨"First PR", "pr-branch", "main", "This is a PR created by a bot"⟩
  let c1 := GCall.createPR owner repo newPRContent
  match gw.createPR owner repo newPRContent with
  | .error e => ⟨.panicked, [c1], [("Failed to create pull request", e)]⟩
  | .ok _ => ⟨.ok, [c1], []⟩

/-- `part_000` lines 98-137: the shortened `/create-branch` block — get the
base ref, create the new branch (name `refs/heads/myNewBranch`, object type
`commit`, empty URL/NodeID), and stop. -/
def createBranchSeqShort (owner repo : String) (gw : Gateway) : HandleResult :=
  let c1 := GCall.getRef owner repo "heads/main"
  match gw.getRef owner repo "heads/main" with
  | .error e => ⟨.ok, [c1], [("Failed to get current reference", e)]⟩
  | .ok currentRef =>
    let newRef : Reference :=
      { refName := some "refs/heads/myNewBranch"
        url := some ""
        objType := some "commit"
        objSHA := some currentRef.objSHA
        nodeID := some "" }
    let c2 := GCall.createRef owner repo newRef
    match gw.createRef owner repo newRef with
    | .error e => ⟨.ok, [c1, c2], [("Failed to create new branch", e)]⟩
    | .ok _ => ⟨.ok, [c1, c2], []⟩

/-- Command dispatch of the second variant of `example/issue_comment.go`. -/
def dispatchMain (cmd owner repo : String) (prNum : Nat) (gw : Gateway) : HandleResult :=
  if cmd = "/create-branch" then createBranchSeq owner repo gw
  else if cmd = "/create-pr" then createPRSeq owner repo prNum gw
  else ⟨.ok, [], []⟩

/-- Command dispatch of `unnamed/part_000`. -/
def dispatchPart000 (cmd owner repo : String) (_prNum : Nat) (gw : Gateway) : HandleResult :=
  if cmd = "/create-branch" then createBranchSeqShort owner repo gw
  else if cmd = "/testpr" then testprSeq owner repo gw
  else ⟨.ok, [], []⟩

/-- Command dispatch of the first variant of `example/issue_comment.go`. -/
def dispatchV1 (cmd owner repo : String) (_prNum : Nat) (gw : Gateway) : HandleResult :=
  if cmd = "/testpr" then testprSeq owner repo gw
  else ⟨.ok, [], []⟩

/-- Line 87/206: the acknowledgement comment body. -/
def ackMsg (preamble author body cmd : String) : String :=
  preamble ++ "\n" ++ author ++ " said\n```\n" ++ body ++
    "\n```\nFound the slash command: `" ++ cmd ++ "`\n"

/-- Lines 94-96/213-215: the result of posting the acknowledgement comment
is only logged (on failure), never acted on. -/
def ackLogsOf (gw : Gateway) (owner repo : String) (n : Nat) (msg : String) :
    List (String × GErr) :=
  match gw.createComment owner repo n msg with
  | .error e => [("Failed to comment on pull request", e)]
  | .ok _ => []

/-- The prologue shared verbatim by all three handler variants (parse the
payload, filter on action `created`, create the installation client, filter
bot authors, classify the command, post the acknowledgement comment), then
run the variant's dispatch block.  `payload = none` models a payload
`json.Unmarshal` rejects; `now` is the ambient wall clock, which the Go code
never reads. -/
def HandleWith (disp : String → String → String → Nat → Gateway → HandleResult)
    (preamble _eventType _deliveryID : String) (_now : Nat)
    (payload : Option IssueCommentEvent) (gw : Gateway) : HandleResult :=
  match payload with
  | none => ⟨.hardError, [], []⟩
  | some event =>
    if event.action = "created" then
      match gw.newInstallationClient with
      | .error _ => ⟨.hardError, [], []⟩
      | .ok _ =>
        if hasSuffix event.author "[bot]" then ⟨.ok, [], []⟩
        else
          let slash_command := slashCommand event.body
          let msg := ackMsg preamble event.author event.body slash_command
          let d := disp slash_command event.repoOwner event.repoName event.prNum gw
          ⟨d.outcome,
           GCall.createComment event.repoOwner event.repoName event.prNum msg :: d.calls,
           ackLogsOf gw event.repoOwner event.repoName event.prNum msg ++ d.errLogs⟩
    else ⟨.ok, [], []⟩

/-- `Handle` of the second variant of `example/issue_comment.go` (lines
158-343). -/
def Handle : String → String → String → Nat → Option IssueCommentEvent → Gateway →
    HandleResult :=
  HandleWith dispatchMain

/-- `Handle` of `unnamed/part_000` (lines 39-160). -/
def HandlePart000 : String → String → String → Nat → Option IssueCommentEvent → Gateway →
    HandleResult :=
  HandleWith dispatchPart000

/-- `Handle` of the first variant of `example/issue_comment.go` (lines
39-119). -/
def HandleV1 : String → String → String → Nat → Option IssueCommentEvent → Gateway →
    HandleResult :=
  HandleWith dispatchV1

/-- Calls that mutate the remote repository (create/update a branch
reference, tree, commit, or pull request). -/
def isRepoMutation : GCall → Bool
  | .createRef _ _ _ => true
  | .createTree _ _ _ _ => true
  | .createCommit _ _ _ => true
  | .updateRef _ _ _ _ _ => true
  | .createPR _ _ _ => true
  | _ => false

/-- Sample accepted event requesting the branch-creation workflow. -/
def evCB : IssueCommentEvent := ⟨"created", "o", "r", 1, "alice", "/create-branch"⟩

/-- Sample accepted event requesting the pull-request workflow. -/
def evCPR : IssueCommentEvent := ⟨"created", "o", "r", 1, "alice", "/create-pr"⟩

/-- Sample accepted event requesting the `/testpr` workflow. -/
def evTestpr : IssueCommentEvent := ⟨"created", "o", "r", 1, "alice", "/testpr"⟩

/-- Sample accepted event whose token matches no recognized literal (note the
capital `C`: string comparison is case-sensitive). -/
def evUnknown : IssueCommentEvent := ⟨"created", "o", "r", 1, "alice", "/Create-branch"⟩

/-- Sample event with a non-`created` action. -/
def evEdited : IssueCommentEvent := ⟨"edited", "o", "r", 1, "alice", "/create-branch"⟩

/-- Sample event authored by an automation account. -/
def evBot : IssueCommentEvent := ⟨"created", "o", "r", 1, "renovate[bot]", "/create-branch"⟩

/-- A gateway whose every call succeeds.  The base branch points at commit
`c0`, whose own tree hash is `t0` (distinct from `c0`, as for any real
commit). -/
def gwOK : Gateway :=
  { newInstallationClient := .ok ()
    createComment := fun _ _ _ _ => .ok ()
    getRef := fun _ _ _ => .ok ⟨"refs/heads/main", "c0"⟩
    createRef := fun _ _ rq => .ok ⟨rq.refName.getD "", rq.objSHA.getD ""⟩
    createTree := fun _ _ _ _ => .ok ⟨"t1"⟩
    getCommit := fun _ _ _ => .ok ⟨"c0", "t0"⟩
    createCommit := fun _ _ _ => .ok ⟨"c1", "t1"⟩
    updateRef := fun _ _ rf _ sha => .ok ⟨rf.refName, sha⟩
    createPR := fun _ _ pr => .ok ⟨17, pr.title, "https://example.invalid/pr/17"⟩ }

/-- `gwOK` with a failing tree-creation call. -/
def gwTreeFail : Gateway := { gwOK with createTree := fun _ _ _ _ => .error "boom" }

/-- `gwOK` with a failing pull-request-creation call. -/
def gwPRFail : Gateway := { gwOK with createPR := fun _ _ _ => .error "boom" }

/-- `gwOK` with a failing comment-posting call. -/
def gwCmtFail : Gateway := { gwOK with createComment := fun _ _ _ _ => .error "boom" }

/-- Commit-creation calls. -/
def isCreateCommitCall : GCall → Bool
  | .createCommit _ _ _ => true
  | _ => false

/-- Reference-update calls. -/
def isUpdateRefCall : GCall → Bool
  | .updateRef _ _ _ _ _ => true
  | _ => false

theorem wordChar_dash : isWordChar '-' = false := by decide

theorem tokTail_append {w t : List Char} (hw : ∀ c ∈ w, isWordChar c = true)
    (ht : tokTail t = true) : tokTail (w ++ t) = true := by
  induction w with
  | nil => simpa using ht
  | cons c w' ih =>
    have hc : isWordChar c = true := hw c (List.mem_cons_self _ _)
    have ih' : tokTail (w' ++ t) = true := ih fun d hd => hw d (List.mem_cons_of_mem _ hd)
    rw [List.cons_append]
    cases hwt : w' ++ t with
    | nil => simp [tokTail, hc]
    | cons d r =>
      rw [hwt] at ih'
      simp [tokTail, hc, ih']

theorem tokTail_flatten {gs : List (List Char)}
    (hgs : ∀ g ∈ gs, ∃ u, g = '-' :: u ∧ IsWordRun u) :
    tokTail gs.flatten = true := by
  induction gs with
  | nil => rfl
  | cons g gs' ih =>
    obtain ⟨u, hg, hne, hw⟩ := hgs g (List.mem_cons_self _ _)
    obtain ⟨d, u', rfl⟩ := List.exists_cons_of_ne_nil hne
    have ih' := ih fun g' hg' => hgs g' (List.mem_cons_of_mem _ hg')
    subst hg
    have hd : isWordChar d = true := hw d (by simp)
    have htl : tokTail (u' ++ gs'.flatten) = true :=
      tokTail_append (fun c hc => hw c (by simp [hc])) ih'
    rw [List.flatten_cons, List.cons_append, List.cons_append]
    simp [tokTail, wordChar_dash, hd, htl]

theorem isTok_of_shape {l : List Char} (h : IsCmdToken l) : isTok l = true := by
  obtain ⟨w, gs, rfl, ⟨hne, hw⟩, hgs⟩ := h
  obtain ⟨c, w', rfl⟩ := List.exists_cons_of_ne_nil hne
  have hc : isWordChar c = true := hw c (by simp)
  have htl : tokTail (w' ++ gs.flatten) = true :=
    tokTail_append (fun d hd => hw d (by simp [hd])) (tokTail_flatten hgs)
  simp [isTok, List.cons_append, hc, htl]

theorem tokTail_shape {t : List Char} (h : tokTail t = true) :
    ∃ w gs, t = w ++ List.flatten gs ∧ (∀ c ∈ w, isWordChar c = true) ∧
      ∀ g ∈ gs, ∃ u, g = '-' :: u ∧ IsWordRun u := by
  induction t using tokTail.induct with
  | case1 => exact ⟨[], [], by simp, by simp, by simp⟩
  | case2 c =>
    have hc : isWordChar c = true := by simpa [tokTail] using h
    refine ⟨[c], [], by simp, ?_, by simp⟩
    intro x hx
    rw [List.mem_singleton.mp hx]
    exact hc
  | case3 c d rest hc ih =>
    have h' : tokTail (d :: rest) = true := by
      rw [tokTail, if_pos hc] at h
      exact h
    obtain ⟨w, gs, heq, hw, hgs⟩ := ih h'
    refine ⟨c :: w, gs, by simp [heq], ?_, hgs⟩
    intro x hx
    rcases List.mem_cons.mp hx with hx | hx
    · rw [hx]; exact hc
    · exact hw x hx
  | case4 d rest hc ih =>
    rw [tokTail, if_neg (by simp [wordChar_dash]), if_pos rfl, Bool.and_eq_true] at h
    obtain ⟨hd, hrest⟩ := h
    obtain ⟨w, gs, heq, hw, hgs⟩ := ih hrest
    refine ⟨[], ('-' :: d :: w) :: gs, ?_, by simp, ?_⟩
    · simp [List.flatten_cons, heq]
    · intro g hg
      rcases List.mem_cons.mp hg with hg | hg
      · refine ⟨d :: w, by rw [hg], by simp, ?_⟩
        intro x hx
        rcases List.mem_cons.mp hx with hx | hx
        · rw [hx]; exact hd
        · exact hw x hx
      · exact hgs g hg
  | case5 c d rest hc hcd =>
    rw [tokTail, if_neg hc, if_neg hcd] at h
    exact absurd h (by simp)

theorem shape_of_isTok {l : List Char} (h : isTok l = true) : IsCmdToken l := by
  cases l with
  | nil => simp [isTok] at h
  | cons x t0 =>
    by_cases hx : x = '/'
    · subst hx
      cases t0 with
      | nil => simp [isTok] at h
      | cons c t =>
        simp only [isTok, if_pos, Bool.and_eq_true] at h
        obtain ⟨hc, ht⟩ := h
        obtain ⟨w, gs, rfl, hw, hgs⟩ := tokTail_shape ht
        refine ⟨c :: w, gs, by simp, ⟨by simp, ?_⟩, hgs⟩
        intro y hy
        rcases List.mem_cons.mp hy with hy | hy
        · rw [hy]; exact hc
        · exact hw y hy
    · simp [isTok, hx] at h

theorem matchTail_isPrefix : ∀ t : List Char, matchTail t <+: t := by
  intro t
  induction t using matchTail.induct with
  | case1 => simp [matchTail]
  | case2 c hc => simp [matchTail, hc]
  | case3 c hc => simp [matchTail, hc]
  | case4 c d rest hc ih =>
    rw [matchTail, if_pos hc]
    obtain ⟨r, hr⟩ := ih
    exact ⟨r, by rw [List.cons_append, hr]⟩
  | case5 d rest hd hdash ih =>
    rw [matchTail, if_neg (by simp [wordChar_dash]), if_pos rfl, if_pos hd]
    obtain ⟨r, hr⟩ := ih
    exact ⟨r, by rw [List.cons_append, List.cons_append, hr]⟩
  | case6 d rest hd hdash =>
    rw [matchTail, if_neg (by simp [wordChar_dash]), if_pos rfl, if_neg hd]
    exact ⟨_, rfl⟩
  | case7 c d rest hc hcd =>
    rw [matchTail, if_neg hc, if_neg hcd]
    exact ⟨_, rfl⟩

theorem matchTail_tok : ∀ t : List Char, tokTail (matchTail t) = true := by
  intro t
  induction t using matchTail.induct with
  | case1 => rfl
  | case2 c hc => simp [matchTail, hc, tokTail]
  | case3 c hc => simp [matchTail, hc, tokTail]
  | case4 c d rest hc ih =>
    rw [matchTail, if_pos hc]
    cases hm : matchTail (d :: rest) with
    | nil => simp [tokTail, hc]
    | cons x xs =>
      rw [hm] at ih
      simp [tokTail, hc, ih]
  | case5 d rest hd hdash ih =>
    rw [matchTail, if_neg (by simp [wordChar_dash]), if_pos rfl, if_pos hd]
    simp [tokTail, wordChar_dash, hd, ih]
  | case6 d rest hd hdash =>
    rw [matchTail, if_neg (by simp [wordChar_dash]), if_pos rfl, if_neg hd]
    rfl
  | case7 c d rest hc hcd =>
    rw [matchTail, if_neg hc, if_neg hcd]
    rfl

theorem matchTail_max : ∀ t p : List Char, p <+: t → tokTail p = true →
    p.length ≤ (matchTail t).length := by
  intro t
  induction t using matchTail.induct with
  | case1 =>
    intro p hp _
    rw [List.prefix_nil.mp hp]
    exact Nat.le_refl _
  | case2 c hc =>
    intro p hp _
    rw [matchTail, if_pos hc]
    calc p.length ≤ [c].length := hp.length_le
    _ = 1 := rfl
  | case3 c hc =>
    intro p hp htok
    cases p with
    | nil => exact Nat.zero_le _
    | cons x q =>
      obtain ⟨r, hr⟩ := hp
      rw [List.cons_append] at hr
      injection hr with hx hqr
      subst hx
      have : q = [] := by
        cases q with
        | nil => rfl
        | cons y ys => exact absurd hqr (by simp)
      subst this
      rw [tokTail] at htok
      exact absurd htok (by simp [hc])
  | case4 c d rest hc ih =>
    intro p hp htok
    cases p with
    | nil => exact Nat.zero_le _
    | cons x q =>
      obtain ⟨r, hr⟩ := hp
      rw [List.cons_append] at hr
      injection hr with hx hqr
      subst hx
      have hq : q <+: d :: rest := ⟨r, hqr⟩
      have hqtok : tokTail q = true := by
        cases q with
        | nil => rfl
        | cons y ys =>
          rw [tokTail, if_pos hc] at htok
          exact htok
      rw [matchTail, if_pos hc]
      simpa using Nat.succ_le_succ (ih q hq hqtok)
  | case5 d rest hd hdash ih =>
    intro p hp htok
    cases p with
    | nil => exact Nat.zero_le _
    | cons x q =>
      obtain ⟨r, hr⟩ := hp
      rw [List.cons_append] at hr
      injection hr with hx hqr
      subst hx
      cases q with
      | nil =>
        rw [matchTail, if_neg (by simp [wordChar_dash]), if_pos rfl, if_pos hd]
        simp
      | cons y ys =>
        rw [List.cons_append] at hqr
        injection hqr with hy hysr
        subst hy
        have hys : ys <+: rest := ⟨r, hysr⟩
        have hktok : tokTail ys = true := by
          rw [tokTail, if_neg (by simp [wordChar_dash]), if_pos rfl,
            Bool.and_eq_true] at htok
          exact htok.2
        rw [matchTail, if_neg (by simp [wordChar_dash]), if_pos rfl, if_pos hd]
        simpa using Nat.succ_le_succ (Nat.succ_le_succ (ih ys hys hktok))
  | case6 d rest hd hdash =>
    intro p hp htok
    cases p with
    | nil => exact Nat.zero_le _
    | cons x q =>
      obtain ⟨r, hr⟩ := hp
      rw [List.cons_append] at hr
      injection hr with hx hqr
      subst hx
      cases q with
      | nil =>
        rw [tokTail] at htok
        exact absurd htok (by simp [wordChar_dash])
      | cons y ys =>
        rw [List.cons_append] at hqr
        injection hqr with hy hysr
        subst hy
        rw [tokTail, if_neg (by simp [wordChar_dash]), if_pos rfl,
          Bool.and_eq_true] at htok
        exact absurd htok.1 (by simp [hd])
  | case7 c d rest hc hcd =>
    intro p hp htok
    cases p with
    | nil => exact Nat.zero_le _
    | cons x q =>
      obtain ⟨r, hr⟩ := hp
      rw [List.cons_append] at hr
      injection hr with hx hqr
      subst hx
      cases q with
      | nil =>
        rw [tokTail] at htok
        exact absurd htok (by simp [hc])
      | cons y ys =>
        rw [tokTail, if_neg hc, if_neg hcd] at htok
        exact absurd htok (by simp)

theorem findCmd_sound {l m : List Char} (h : findCmd l = some m) :
    isTok m = true ∧ m <+: l := by
  cases l with
  | nil => simp [findCmd] at h
  | cons c t =>
    by_cases hc : c = '/'
    · subst hc
      cases t with
      | nil => simp [findCmd] at h
      | cons d t' =>
        by_cases hd : isWordChar d = true
        · simp [findCmd, hd] at h
          subst h
          constructor
          · simp [isTok, hd, matchTail_tok]
          · obtain ⟨r, hr⟩ := matchTail_isPrefix t'
            exact ⟨r, by simp [hr]⟩
        · simp [findCmd, hd] at h
    · simp [findCmd, hc] at h

theorem findCmd_max {l m : List Char} (h : findCmd l = some m) :
    ∀ p : List Char, p <+: l → isTok p = true → p.length ≤ m.length := by
  intro p hp htok
  cases l with
  | nil => simp [findCmd] at h
  | cons c t =>
    by_cases hc : c = '/'
    · subst hc
      cases t with
      | nil => simp [findCmd] at h
      | cons d t' =>
        by_cases hd : isWordChar d = true
        · simp [findCmd, hd] at h
          subst h
          cases p with
          | nil => exact Nat.zero_le _
          | cons x q =>
            obtain ⟨r, hr⟩ := hp
            rw [List.cons_append] at hr
            injection hr with hx hqr
            subst hx
            cases q with
            | nil => simp [isTok] at htok
            | cons y q' =>
              rw [List.cons_append] at hqr
              injection hqr with hy hq'r
              subst hy
              simp only [isTok, if_pos, Bool.and_eq_true] at htok
              have : q'.length ≤ (matchTail t').length :=
                matchTail_max t' q' ⟨r, hq'r⟩ htok.2
              simpa using Nat.succ_le_succ (Nat.succ_le_succ this)
        · simp [findCmd, hd] at h
    · simp [findCmd, hc] at h

theorem findCmd_none {l : List Char} (h : findCmd l = none) :
    ∀ p : List Char, p <+: l → isTok p = false := by
  intro p hp
  cases p with
  | nil => rfl
  | cons x q =>
    cases l with
    | nil => exact absurd (List.prefix_nil.mp hp) (by simp)
    | cons c t =>
      obtain ⟨r, hr⟩ := hp
      rw [List.cons_append] at hr
      injection hr with hx hqr
      subst hx
      by_cases hc : x = '/'
      · subst hc
        cases q with
        | nil => rfl
        | cons y q' =>
          cases t with
          | nil => exact absurd hqr (by simp)
          | cons d t' =>
            injection hqr with hy hq'r
            subst hy
            by_cases hd : isWordChar y = true
            · simp [findCmd, hd] at h
            · simp [isTok, hd]
      · simp [isTok, hc]


theorem handleWith_accepted
    (disp : String → String → String → Nat → Gateway → HandleResult)
    (pre eT dI : String) (now : Nat) (ev : IssueCommentEvent) (gw : Gateway)
    (hact : ev.action = "created") (hcli : gw.newInstallationClient = .ok ())
    (hbot : hasSuffix ev.author "[bot]" = false) :
    HandleWith disp pre eT dI now (some ev) gw =
      ⟨(disp (slashCommand ev.body) ev.repoOwner ev.repoName ev.prNum gw).outcome,
       GCall.createComment ev.repoOwner ev.repoName ev.prNum
           (ackMsg pre ev.author ev.body (slashCommand ev.body)) ::
         (disp (slashCommand ev.body) ev.repoOwner ev.repoName ev.prNum gw).calls,
       ackLogsOf gw ev.repoOwner ev.repoName ev.prNum
           (ackMsg pre ev.author ev.body (slashCommand ev.body)) ++
         (disp (slashCommand ev.body) ev.repoOwner ev.repoName ev.prNum gw).errLogs⟩ := by
  rw [HandleWith]
  simp only [hact, hcli, hbot, if_true, Bool.false_eq_true, if_false, reduceIte]




theorem createBranchSeq_comment_indep (o r : String) (gw : Gateway)
    (g : String → String → Nat → String → Except GErr Unit) :
    createBranchSeq o r { gw with createComment := g } = createBranchSeq o r gw := rfl

theorem createBranchSeq_outcome (o r : String) (gw : Gateway) :
    (createBranchSeq o r gw).outcome = .ok := by
  simp only [createBranchSeq]
  cases gw.getRef o r "heads/main" with
  | error e => rfl
  | ok bref =>
    dsimp only
    cases gw.createRef o r (newBranchReq bref) with
    | error e => rfl
    | ok nref =>
      dsimp only
      cases gw.createTree o r bref.objSHA treeEntries with
      | error e => rfl
      | ok tref =>
        dsimp only
        cases gw.getCommit o r bref.objSHA with
        | error e => rfl
        | ok cref =>
          dsimp only
          cases gw.createCommit o r (newCommitReq tref cref) with
          | error e => rfl
          | ok ncref =>
            dsimp only
            cases gw.updateRef o r nref true ncref.sha with
            | error e => rfl
            | ok _ => rfl

theorem createPRSeq_outcome (o r : String) (n : Nat) (gw : Gateway) :
    (createPRSeq o r n gw).outcome = .ok := by
  simp only [createPRSeq]
  cases gw.createPR o r ⟨"PR created by bot", "my-bot-PR-branch", "main",
      "Please, merge the content of this PR :rocket:"⟩ with
  | error e => rfl
  | ok pr =>
    dsimp only
    cases gw.createComment o r n ("The PR has been created, [click here to check it](" ++
        pr.htmlURL ++ ") :eyes:") with
    | error e => rfl
    | ok _ => rfl

theorem dispatchMain_outcome (cmd o r : String) (n : Nat) (gw : Gateway) :
    (dispatchMain cmd o r n gw).outcome = .ok := by
  rw [dispatchMain]
  by_cases h1 : cmd = "/create-branch"
  · rw [if_pos h1]; exact createBranchSeq_outcome o r gw
  · rw [if_neg h1]
    by_cases h2 : cmd = "/create-pr"
    · rw [if_pos h2]; exact createPRSeq_outcome o r n gw
    · rw [if_neg h2]


theorem createBranchSeq_fail1 (o r : String) (gw : Gateway) (e : GErr)
    (h1 : gw.getRef o r "heads/main" = .error e) :
    createBranchSeq o r gw =
      ⟨.ok, [GCall.getRef o r "heads/main"], [("Failed to get current reference", e)]⟩ := by
  simp only [createBranchSeq, h1]

theorem createBranchSeq_fail2 (o r : String) (gw : Gateway) (bref : RefInfo) (e : GErr)
    (h1 : gw.getRef o r "heads/main" = .ok bref)
    (h2 : gw.createRef o r (newBranchReq bref) = .error e) :
    createBranchSeq o r gw =
      ⟨.ok, [GCall.getRef o r "heads/main", GCall.createRef o r (newBranchReq bref)],
       [("Failed to create new branch", e)]⟩ := by
  simp only [createBranchSeq, h1, h2]

theorem createBranchSeq_fail3 (o r : String) (gw : Gateway) (bref nref : RefInfo) (e : GErr)
    (h1 : gw.getRef o r "heads/main" = .ok bref)
    (h2 : gw.createRef o r (newBranchReq bref) = .ok nref)
    (h3 : gw.createTree o r bref.objSHA treeEntries = .error e) :
    createBranchSeq o r gw =
      ⟨.ok,
       [GCall.getRef o r "heads/main", GCall.createRef o r (newBranchReq bref),
        GCall.createTree o r bref.objSHA treeEntries],
       [("Failed to create new tree", e)]⟩ := by
  simp only [createBranchSeq, h1, h2, h3]

theorem createBranchSeq_fail4 (o r : String) (gw : Gateway) (bref nref : RefInfo)
    (tref : TreeResp) (e : GErr)
    (h1 : gw.getRef o r "heads/main" = .ok bref)
    (h2 : gw.createRef o r (newBranchReq bref) = .ok nref)
    (h3 : gw.createTree o r bref.objSHA treeEntries = .ok tref)
    (h4 : gw.getCommit o r bref.objSHA = .error e) :
    createBranchSeq o r gw =
      ⟨.ok,
       [GCall.getRef o r "heads/main", GCall.createRef o r (newBranchReq bref),
        GCall.createTree o r bref.objSHA treeEntries, GCall.getCommit o r bref.objSHA],
       [("Failed to get latest commit", e)]⟩ := by
  simp only [createBranchSeq, h1, h2, h3, h4]

theorem createBranchSeq_fail5 (o r : String) (gw : Gateway) (bref nref : RefInfo)
    (tref : TreeResp) (cref : CommitResp) (e : GErr)
    (h1 : gw.getRef o r "heads/main" = .ok bref)
    (h2 : gw.createRef o r (newBranchReq bref) = .ok nref)
    (h3 : gw.createTree o r bref.objSHA treeEntries = .ok tref)
    (h4 : gw.getCommit o r bref.objSHA = .ok cref)
    (h5 : gw.createCommit o r (newCommitReq tref cref) = .error e) :
    createBranchSeq o r gw =
      ⟨.ok,
       [GCall.getRef o r "heads/main", GCall.createRef o r (newBranchReq bref),
        GCall.createTree o r bref.objSHA treeEntries, GCall.getCommit o r bref.objSHA,
        GCall.createCommit o r (newCommitReq tref cref)],
       [("Failed to create new commit", e)]⟩ := by
  simp only [createBranchSeq, h1, h2, h3, h4, h5]

theorem createBranchSeq_step6 (o r : String) (gw : Gateway) (bref nref : RefInfo)
    (tref : TreeResp) (cref ncref : CommitResp)
    (h1 : gw.getRef o r "heads/main" = .ok bref)
    (h2 : gw.createRef o r (newBranchReq bref) = .ok nref)
    (h3 : gw.createTree o r bref.objSHA treeEntries = .ok tref)
    (h4 : gw.getCommit o r bref.objSHA = .ok cref)
    (h5 : gw.createCommit o r (newCommitReq tref cref) = .ok ncref) :
    (createBranchSeq o r gw).calls =
      [GCall.getRef o r "heads/main", GCall.createRef o r (newBranchReq bref),
       GCall.createTree o r bref.objSHA treeEntries, GCall.getCommit o r bref.objSHA,
       GCall.createCommit o r (newCommitReq tref cref),
       GCall.updateRef o r nref true ncref.sha] := by
  simp only [createBranchSeq, h1, h2, h3, h4, h5]
  cases gw.updateRef o r nref true ncref.sha with
  | error e => rfl
  | ok _ => rfl

theorem createPRSeq_fail (o r : String) (n : Nat) (gw : Gateway) (e : GErr)
    (h : gw.createPR o r ⟨"PR created by bot", "my-bot-PR-branch", "main",
        "Please, merge the content of this PR :rocket:"⟩ = .error e) :
    createPRSeq o r n gw =
      ⟨.ok,
       [GCall.createPR o r ⟨"PR created by bot", "my-bot-PR-branch", "main",
          "Please, merge the content of this PR :rocket:"⟩],
       [("Failed to create pull request", e)]⟩ := by
  simp only [createPRSeq, h]

theorem createPRSeq_calls_indep (o r : String) (n : Nat) (gw gw' : Gateway)
    (hpr : gw'.createPR = gw.createPR) :
    (createPRSeq o r n gw').calls = (createPRSeq o r n gw).calls := by
  simp only [createPRSeq, hpr]
  cases gw.createPR o r ⟨"PR created by bot", "my-bot-PR-branch", "main",
      "Please, merge the content of this PR :rocket:"⟩ with
  | error e => rfl
  | ok pr =>
    dsimp only
    cases gw'.createComment o r n ("The PR has been created, [click here to check it](" ++
        pr.htmlURL ++ ") :eyes:") with
    | error e =>
      cases gw.createComment o r n ("The PR has been created, [click here to check it](" ++
          pr.htmlURL ++ ") :eyes:") with
      | error e' => rfl
      | ok _ => rfl
    | ok _ =>
      cases gw.createComment o r n ("The PR has been created, [click here to check it](" ++
          pr.htmlURL ++ ") :eyes:") with
      | error e' => rfl
      | ok _ => rfl

theorem dispatchMain_calls_indep (cmd o r : String) (n : Nat) (gw : Gateway)
    (g : String → String → Nat → String → Except GErr Unit) :
    (dispatchMain cmd o r n { gw with createComment := g }).calls =
      (dispatchMain cmd o r n gw).calls := by
  rw [dispatchMain, dispatchMain]
  by_cases h1 : cmd = "/create-branch"
  · rw [if_pos h1, if_pos h1]
    exact rfl
  · rw [if_neg h1, if_neg h1]
    by_cases h2 : cmd = "/create-pr"
    · rw [if_pos h2, if_pos h2]
      exact createPRSeq_calls_indep o r n gw { gw with createComment := g } rfl
    · rw [if_neg h2, if_neg h2]


theorem handle_main_cb (pre eT dI : String) (now : Nat) (ev : IssueCommentEvent)
    (gw : Gateway) (hact : ev.action = "created")
    (hcli : gw.newInstallationClient = .ok ())
    (hbot : hasSuffix ev.author "[bot]" = false)
    (hcmd : slashCommand ev.body = "/create-branch") :
    Handle pre eT dI now (some ev) gw =
      ⟨(createBranchSeq ev.repoOwner ev.repoName gw).outcome,
       GCall.createComment ev.repoOwner ev.repoName ev.prNum
           (ackMsg pre ev.author ev.body "/create-branch") ::
         (createBranchSeq ev.repoOwner ev.repoName gw).calls,
       ackLogsOf gw ev.repoOwner ev.repoName ev.prNum
           (ackMsg pre ev.author ev.body "/create-branch") ++
         (createBranchSeq ev.repoOwner ev.repoName gw).errLogs⟩ := by
  rw [Handle, handleWith_accepted dispatchMain pre eT dI now ev gw hact hcli hbot, hcmd]
  simp only [dispatchMain, reduceIte]

/-- Claim C1: in the `/create-branch` workflow every failing gateway call
abandons the remaining steps (in particular a tree-creation failure prevents
commit creation and reference update), the error is logged, and the handler
still returns success (`.ok`) to its caller. -/
theorem branch_workflow_short_circuits (pre eT dI : String) (now : Nat)
    (ev : IssueCommentEvent) (gw : Gateway)
    (hact : ev.action = "created") (hcli : gw.newInstallationClient = .ok ())
    (hbot : hasSuffix ev.author "[bot]" = false)
    (hcmd : slashCommand ev.body = "/create-branch") :
    (Handle pre eT dI now (some ev) gw).outcome = .ok
    ∧ (∀ bref nref e,
        gw.getRef ev.repoOwner ev.repoName "heads/main" = .ok bref →
        gw.createRef ev.repoOwner ev.repoName (newBranchReq bref) = .ok nref →
        gw.createTree ev.repoOwner ev.repoName bref.objSHA treeEntries = .error e →
        (Handle pre eT dI now (some ev) gw).calls =
            [GCall.createComment ev.repoOwner ev.repoName ev.prNum
               (ackMsg pre ev.author ev.body "/create-branch"),
             GCall.getRef ev.repoOwner ev.repoName "heads/main",
             GCall.createRef ev.repoOwner ev.repoName (newBranchReq bref),
             GCall.createTree ev.repoOwner ev.repoName bref.objSHA treeEntries]
          ∧ ("Failed to create new tree", e) ∈ (Handle pre eT dI now (some ev) gw).errLogs
          ∧ ∀ c ∈ (Handle pre eT dI now (some ev) gw).calls,
              isCreateCommitCall c = false ∧ isUpdateRefCall c = false)
    ∧ (∀ e, gw.getRef ev.repoOwner ev.repoName "heads/main" = .error e →
        (Handle pre eT dI now (some ev) gw).calls =
          [GCall.createComment ev.repoOwner ev.repoName ev.prNum
             (ackMsg pre ev.author ev.body "/create-branch"),
           GCall.getRef ev.repoOwner ev.repoName "heads/main"]
        ∧ ("Failed to get current reference", e) ∈ (Handle pre eT dI now (some ev) gw).errLogs)
    ∧ (∀ bref e,
        gw.getRef ev.repoOwner ev.repoName "heads/main" = .ok bref →
        gw.createRef ev.repoOwner ev.repoName (newBranchReq bref) = .error e →
        (Handle pre eT dI now (some ev) gw).calls =
          [GCall.createComment ev.repoOwner ev.repoName ev.prNum
             (ackMsg pre ev.author ev.body "/create-branch"),
           GCall.getRef ev.repoOwner ev.repoName "heads/main",
           GCall.createRef ev.repoOwner ev.repoName (newBranchReq bref)]
        ∧ ("Failed to create new branch", e) ∈ (Handle pre eT dI now (some ev) gw).errLogs)
    ∧ (∀ bref nref tref e,
        gw.getRef ev.repoOwner ev.repoName "heads/main" = .ok bref →
        gw.createRef ev.repoOwner ev.repoName (newBranchReq bref) = .ok nref →
        gw.createTree ev.repoOwner ev.repoName bref.objSHA treeEntries = .ok tref →
        gw.getCommit ev.repoOwner ev.repoName bref.objSHA = .error e →
        (Handle pre eT dI now (some ev) gw).calls =
          [GCall.createComment ev.repoOwner ev.repoName ev.prNum
             (ackMsg pre ev.author ev.body "/create-branch"),
           GCall.getRef ev.repoOwner ev.repoName "heads/main",
           GCall.createRef ev.repoOwner ev.repoName (newBranchReq bref),
           GCall.createTree ev.repoOwner ev.repoName bref.objSHA treeEntries,
           GCall.getCommit ev.repoOwner ev.repoName bref.objSHA]
        ∧ ("Failed to get latest commit", e) ∈ (Handle pre eT dI now (some ev) gw).errLogs)
    ∧ (∀ bref nref tref cref e,
        gw.getRef ev.repoOwner ev.repoName "heads/main" = .ok bref →
        gw.createRef ev.repoOwner ev.repoName (newBranchReq bref) = .ok nref →
        gw.createTree ev.repoOwner ev.repoName bref.objSHA treeEntries = .ok tref →
        gw.getCommit ev.repoOwner ev.repoName bref.objSHA = .ok cref →
        gw.createCommit ev.repoOwner ev.repoName (newCommitReq tref cref) = .error e →
        (Handle pre eT dI now (some ev) gw).calls =
          [GCall.createComment ev.repoOwner ev.repoName ev.prNum
             (ackMsg pre ev.author ev.body "/create-branch"),
           GCall.getRef ev.repoOwner ev.repoName "heads/main",
           GCall.createRef ev.repoOwner ev.repoName (newBranchReq bref),
           GCall.createTree ev.repoOwner ev.repoName bref.objSHA treeEntries,
           GCall.getCommit ev.repoOwner ev.repoName bref.objSHA,
           GCall.createCommit ev.repoOwner ev.repoName (newCommitReq tref cref)]
        ∧ ("Failed to create new commit", e) ∈ (Handle pre eT dI now (some ev) gw).errLogs
        ∧ ∀ c ∈ (Handle pre eT dI now (some ev) gw).calls, isUpdateRefCall c = false) := by
  have hred := handle_main_cb pre eT dI now ev gw hact hcli hbot hcmd
  refine ⟨?_, ?_, ?_, ?_, ?_, ?_⟩
  · rw [hred]
    exact createBranchSeq_outcome ev.repoOwner ev.repoName gw
  · intro bref nref e h1 h2 h3
    rw [hred, createBranchSeq_fail3 ev.repoOwner ev.repoName gw bref nref e h1 h2 h3]
    refine ⟨rfl, by simp, ?_⟩
    intro c hc
    simp only [List.mem_cons, List.not_mem_nil, or_false] at hc
    rcases hc with rfl | rfl | rfl | rfl <;> exact ⟨rfl, rfl⟩
  · intro e h1
    rw [hred, createBranchSeq_fail1 ev.repoOwner ev.repoName gw e h1]
    exact ⟨rfl, by simp⟩
  · intro bref e h1 h2
    rw [hred, createBranchSeq_fail2 ev.repoOwner ev.repoName gw bref e h1 h2]
    exact ⟨rfl, by simp⟩
  · intro bref nref tref e h1 h2 h3 h4
    rw [hred, createBranchSeq_fail4 ev.repoOwner ev.repoName gw bref nref tref e h1 h2 h3 h4]
    exact ⟨rfl, by simp⟩
  · intro bref nref tref cref e h1 h2 h3 h4 h5
    rw [hred, createBranchSeq_fail5 ev.repoOwner ev.repoName gw bref nref tref cref e h1 h2 h3 h4 h5]
    refine ⟨rfl, by simp, ?_⟩
    intro c hc
    simp only [List.mem_cons, List.not_mem_nil, or_false] at hc
    rcases hc with rfl | rfl | rfl | rfl | rfl | rfl <;> rfl


/-- Witness for C1 at a concrete accepted event and a gateway failing at the
tree-creation step. -/
theorem branch_workflow_short_circuits_witness :
    (Handle "p" "" "" 0 (some evCB) gwTreeFail).outcome = .ok
    ∧ (Handle "p" "" "" 0 (some evCB) gwTreeFail).calls =
        [GCall.createComment "o" "r" 1 (ackMsg "p" "alice" "/create-branch" "/create-branch"),
         GCall.getRef "o" "r" "heads/main",
         GCall.createRef "o" "r" (newBranchReq ⟨"refs/heads/main", "c0"⟩),
         GCall.createTree "o" "r" "c0" treeEntries] :=
  ⟨(branch_workflow_short_circuits "p" "" "" 0 evCB gwTreeFail rfl rfl (by decide)
      (by decide)).1,
   ((branch_workflow_short_circuits "p" "" "" 0 evCB gwTreeFail rfl rfl (by decide)
      (by decide)).2.1
     ⟨"refs/heads/main", "c0"⟩ ⟨"refs/heads/my-bot-PR-branch", "c0"⟩ "boom" rfl rfl rfl).1⟩


/-- Claim C3 (amended): in step 3 of the branch-creation workflow the new
tree is created with base-tree argument equal to the hash the base branch
reference points at — the base commit's own hash, not the base commit's tree
hash — and with entries equal to the fixed hardcoded list of
(path, mode 100644, blob, inline content) pairs. -/
theorem tree_creation_args (pre eT dI : String) (now : Nat) (ev : IssueCommentEvent)
    (gw : Gateway) (bref nref : RefInfo)
    (hact : ev.action = "created") (hcli : gw.newInstallationClient = .ok ())
    (hbot : hasSuffix ev.author "[bot]" = false)
    (hcmd : slashCommand ev.body = "/create-branch")
    (h1 : gw.getRef ev.repoOwner ev.repoName "heads/main" = .ok bref)
    (h2 : gw.createRef ev.repoOwner ev.repoName (newBranchReq bref) = .ok nref) :
    (Handle pre eT dI now (some ev) gw).calls.take 4 =
      [GCall.createComment ev.repoOwner ev.repoName ev.prNum
         (ackMsg pre ev.author ev.body "/create-branch"),
       GCall.getRef ev.repoOwner ev.repoName "heads/main",
       GCall.createRef ev.repoOwner ev.repoName (newBranchReq bref),
       GCall.createTree ev.repoOwner ev.repoName bref.objSHA
         [⟨"file1.txt", "100644", "blob", "file content"⟩,
          ⟨"file2.txt", "100644", "blob", "another file content"⟩]] := by
  rw [handle_main_cb pre eT dI now ev gw hact hcli hbot hcmd]
  simp only [createBranchSeq, h1, h2]
  cases gw.createTree ev.repoOwner ev.repoName bref.objSHA treeEntries with
  | error e => rfl
  | ok tref =>
    dsimp only
    cases gw.getCommit ev.repoOwner ev.repoName bref.objSHA with
    | error e => rfl
    | ok cref =>
      dsimp only
      cases gw.createCommit ev.repoOwner ev.repoName (newCommitReq tref cref) with
      | error e => rfl
      | ok ncref =>
        dsimp only
        cases gw.updateRef ev.repoOwner ev.repoName nref true ncref.sha with
        | error e => rfl
        | ok _ => rfl

/-- Witness for C3's amended theorem at a concrete accepted event and an
all-success gateway. -/
theorem tree_creation_args_witness :
    (Handle "p" "" "" 0 (some evCB) gwOK).calls.take 4 =
      [GCall.createComment "o" "r" 1 (ackMsg "p" "alice" "/create-branch" "/create-branch"),
       GCall.getRef "o" "r" "heads/main",
       GCall.createRef "o" "r" (newBranchReq ⟨"refs/heads/main", "c0"⟩),
       GCall.createTree "o" "r" "c0"
         [⟨"file1.txt", "100644", "blob", "file content"⟩,
          ⟨"file2.txt", "100644", "blob", "another file content"⟩]] :=
  tree_creation_args "p" "" "" 0 evCB gwOK ⟨"refs/heads/main", "c0"⟩
    ⟨"refs/heads/my-bot-PR-branch", "c0"⟩ rfl rfl (by decide) (by decide) rfl rfl

/-- Counterexample for C3 as stated: the gateway reports that base commit
`c0` has tree hash `t0`, yet the tree-creation call passes `c0` (the commit
hash itself) as the base tree, not `t0`. -/
theorem tree_base_not_commit_tree_cex :
    gwOK.getCommit "o" "r" "c0" = .ok ⟨"c0", "t0"⟩
    ∧ (Handle "p" "" "" 0 (some evCB) gwOK).calls.take 4 =
        [GCall.createComment "o" "r" 1 (ackMsg "p" "alice" "/create-branch" "/create-branch"),
         GCall.getRef "o" "r" "heads/main",
         GCall.createRef "o" "r" (newBranchReq ⟨"refs/heads/main", "c0"⟩),
         GCall.createTree "o" "r" "c0" treeEntries]
    ∧ (Handle "p" "" "" 0 (some evCB) gwOK).calls.take 4 ≠
        [GCall.createComment "o" "r" 1 (ackMsg "p" "alice" "/create-branch" "/create-branch"),
         GCall.getRef "o" "r" "heads/main",
         GCall.createRef "o" "r" (newBranchReq ⟨"refs/heads/main", "c0"⟩),
         GCall.createTree "o" "r" "t0" treeEntries] := by
  refine ⟨rfl, by decide, by decide⟩

/-- Claim C4 (amended): in step 5 the new commit is created with the fixed
literal message, NO author field (the request carries no identity and no
timestamp; the service fills them in), tree equal to the step-3 tree, and
parents exactly the single base commit fetched in step 4; the branch
reference is then updated with force = true to the new commit's hash. -/
theorem commit_creation_args (pre eT dI : String) (now : Nat) (ev : IssueCommentEvent)
    (gw : Gateway) (bref nref : RefInfo) (tref : TreeResp) (cref ncref : CommitResp)
    (hact : ev.action = "created") (hcli : gw.newInstallationClient = .ok ())
    (hbot : hasSuffix ev.author "[bot]" = false)
    (hcmd : slashCommand ev.body = "/create-branch")
    (h1 : gw.getRef ev.repoOwner ev.repoName "heads/main" = .ok bref)
    (h2 : gw.createRef ev.repoOwner ev.repoName (newBranchReq bref) = .ok nref)
    (h3 : gw.createTree ev.repoOwner ev.repoName bref.objSHA treeEntries = .ok tref)
    (h4 : gw.getCommit ev.repoOwner ev.repoName bref.objSHA = .ok cref)
    (h5 : gw.createCommit ev.repoOwner ev.repoName (newCommitReq tref cref) = .ok ncref) :
    (Handle pre eT dI now (some ev) gw).calls =
      [GCall.createComment ev.repoOwner ev.repoName ev.prNum
         (ackMsg pre ev.author ev.body "/create-branch"),
       GCall.getRef ev.repoOwner ev.repoName "heads/main",
       GCall.createRef ev.repoOwner ev.repoName (newBranchReq bref),
       GCall.createTree ev.repoOwner ev.repoName bref.objSHA treeEntries,
       GCall.getCommit ev.repoOwner ev.repoName bref.objSHA,
       GCall.createCommit ev.repoOwner ev.repoName
         ⟨some tref.sha, some "This is a commit by bot", none, some tref, [cref]⟩,
       GCall.updateRef ev.repoOwner ev.repoName nref true ncref.sha] := by
  rw [handle_main_cb pre eT dI now ev gw hact hcli hbot hcmd]
  dsimp only
  rw [createBranchSeq_step6 ev.repoOwner ev.repoName gw bref nref tref cref ncref
    h1 h2 h3 h4 h5]
  rfl

/-- Witness for C4's amended theorem at a concrete accepted event and an
all-success gateway. -/
theorem commit_creation_args_witness :
    (Handle "p" "" "" 0 (some evCB) gwOK).calls =
      [GCall.createComment "o" "r" 1 (ackMsg "p" "alice" "/create-branch" "/create-branch"),
       GCall.getRef "o" "r" "heads/main",
       GCall.createRef "o" "r" (newBranchReq ⟨"refs/heads/main", "c0"⟩),
       GCall.createTree "o" "r" "c0" treeEntries,
       GCall.getCommit "o" "r" "c0",
       GCall.createCommit "o" "r"
         ⟨some "t1", some "This is a commit by bot", none, some ⟨"t1"⟩, [⟨"c0", "t0"⟩]⟩,
       GCall.updateRef "o" "r" ⟨"refs/heads/my-bot-PR-branch", "c0"⟩ true "c1"] :=
  commit_creation_args "p" "" "" 0 evCB gwOK ⟨"refs/heads/main", "c0"⟩
    ⟨"refs/heads/my-bot-PR-branch", "c0"⟩ ⟨"t1"⟩ ⟨"c0", "t0"⟩ ⟨"c1", "t1"⟩
    rfl rfl (by decide) (by decide) rfl rfl rfl rfl rfl

/-- Counterexample for C4 as stated: at a concrete input the commit request
passed to the gateway has `author = none` — no fixed bot identity and no
wall-clock timestamp is sent — and the run is identical under two different
ambient clock values. -/
theorem commit_author_unset_cex :
    (Handle "p" "" "" 0 (some evCB) gwOK).calls.take 6 =
      [GCall.createComment "o" "r" 1 (ackMsg "p" "alice" "/create-branch" "/create-branch"),
       GCall.getRef "o" "r" "heads/main",
       GCall.createRef "o" "r" (newBranchReq ⟨"refs/heads/main", "c0"⟩),
       GCall.createTree "o" "r" "c0" treeEntries,
       GCall.getCommit "o" "r" "c0",
       GCall.createCommit "o" "r"
         ⟨some "t1", some "This is a commit by bot", none, some ⟨"t1"⟩, [⟨"c0", "t0"⟩]⟩]
    ∧ (CommitObj.author
        ⟨some "t1", some "This is a commit by bot", none, some ⟨"t1"⟩, [⟨"c0", "t0"⟩]⟩).isSome
          = false
    ∧ Handle "p" "" "" 5 (some evCB) gwOK = Handle "p" "" "" 99 (some evCB) gwOK := by
  refine ⟨by decide, rfl, rfl⟩

/-- Claim C6: for every accepted event the acknowledgement comment (fixed
preamble, author, verbatim body, classified token) is the first gateway
call; a posting failure is logged; and the calls performed and the final
outcome do not depend on the comment-posting responses, so the workflow
still runs. -/
theorem ack_comment_first_and_nonblocking (pre eT dI : String) (now : Nat)
    (ev : IssueCommentEvent) (gw : Gateway)
    (hact : ev.action = "created") (hcli : gw.newInstallationClient = .ok ())
    (hbot : hasSuffix ev.author "[bot]" = false) :
    ((Handle pre eT dI now (some ev) gw).calls.head? =
      some (GCall.createComment ev.repoOwner ev.repoName ev.prNum
        (ackMsg pre ev.author ev.body (slashCommand ev.body))))
    ∧ (∀ e, gw.createComment ev.repoOwner ev.repoName ev.prNum
          (ackMsg pre ev.author ev.body (slashCommand ev.body)) = .error e →
        ("Failed to comment on pull request", e) ∈
          (Handle pre eT dI now (some ev) gw).errLogs)
    ∧ (∀ g : String → String → Nat → String → Except GErr Unit,
        (Handle pre eT dI now (some ev) { gw with createComment := g }).calls =
            (Handle pre eT dI now (some ev) gw).calls
        ∧ (Handle pre eT dI now (some ev) { gw with createComment := g }).outcome =
            (Handle pre eT dI now (some ev) gw).outcome) := by
  have hred := handleWith_accepted dispatchMain pre eT dI now ev gw hact hcli hbot
  refine ⟨?_, ?_, ?_⟩
  · rw [Handle, hred]
    rfl
  · intro e he
    rw [Handle, hred]
    dsimp only
    simp [ackLogsOf, he]
  · intro g
    have hred' := handleWith_accepted dispatchMain pre eT dI now ev
      { gw with createComment := g } hact hcli hbot
    constructor
    · rw [Handle, hred', hred]
      dsimp only
      rw [dispatchMain_calls_indep]
    · rw [Handle, hred', hred]
      dsimp only
      rw [dispatchMain_outcome, dispatchMain_outcome]

/-- Witness for C6 with a gateway whose comment-posting call fails. -/
theorem ack_comment_first_and_nonblocking_witness :
    ("Failed to comment on pull request", "boom") ∈
      (Handle "p" "" "" 0 (some evCB) gwCmtFail).errLogs :=
  (ack_comment_first_and_nonblocking "p" "" "" 0 evCB gwCmtFail rfl rfl (by decide)).2.1
    "boom" rfl

/-- Claim C7: events with an action other than `created`, and events whose
comment author ends in the `[bot]` suffix, cause zero gateway calls (hence
zero comment posts and zero repository mutations) in all three handler
variants. -/
theorem filtered_events_no_calls (pre eT dI : String) (now : Nat)
    (ev : IssueCommentEvent) (gw : Gateway)
    (h : ev.action ≠ "created" ∨ hasSuffix ev.author "[bot]" = true) :
    ((Handle pre eT dI now (some ev) gw).calls = []
      ∧ (Handle pre eT dI now (some ev) gw).errLogs = [])
    ∧ ((HandlePart000 pre eT dI now (some ev) gw).calls = []
      ∧ (HandlePart000 pre eT dI now (some ev) gw).errLogs = [])
    ∧ ((HandleV1 pre eT dI now (some ev) gw).calls = []
      ∧ (HandleV1 pre eT dI now (some ev) gw).errLogs = []) := by
  have key : ∀ disp, (HandleWith disp pre eT dI now (some ev) gw).calls = []
      ∧ (HandleWith disp pre eT dI now (some ev) gw).errLogs = [] := by
    intro disp
    rw [HandleWith]
    rcases h with h | h
    · rw [if_neg h]
      exact ⟨rfl, rfl⟩
    · by_cases ha : ev.action = "created"
      · rw [if_pos ha]
        cases gw.newInstallationClient with
        | error e => exact ⟨rfl, rfl⟩
        | ok u =>
          dsimp only
          rw [if_pos h]
          exact ⟨rfl, rfl⟩
      · rw [if_neg ha]
        exact ⟨rfl, rfl⟩
  exact ⟨key dispatchMain, key dispatchPart000, key dispatchV1⟩

/-- Witness for C7: an `edited`-action event and a bot-authored event. -/
theorem filtered_events_no_calls_witness :
    (Handle "p" "" "" 0 (some evEdited) gwOK).calls = []
    ∧ (Handle "p" "" "" 0 (some evBot) gwOK).calls = [] :=
  ⟨(filtered_events_no_calls "p" "" "" 0 evEdited gwOK (Or.inl (by decide))).1.1,
   (filtered_events_no_calls "p" "" "" 0 evBot gwOK (Or.inr (by decide))).1.1⟩

/-- Claim C8: an unparseable payload makes every handler variant abort
immediately with a hard error, zero gateway calls and zero log entries. -/
theorem malformed_payload_hard_error (pre eT dI : String) (now : Nat) (gw : Gateway) :
    Handle pre eT dI now none gw = ⟨.hardError, [], []⟩
    ∧ HandlePart000 pre eT dI now none gw = ⟨.hardError, [], []⟩
    ∧ HandleV1 pre eT dI now none gw = ⟨.hardError, [], []⟩ :=
  ⟨rfl, rfl, rfl⟩

/-- Claim C9: for every accepted event whose classified token differs (by
case-sensitive string equality) from all recognized literals, each handler
variant performs exactly one gateway call — the acknowledgement comment —
and no repository mutation. -/
theorem unrecognized_command_only_ack (pre eT dI : String) (now : Nat)
    (ev : IssueCommentEvent) (gw : Gateway)
    (hact : ev.action = "created") (hcli : gw.newInstallationClient = .ok ())
    (hbot : hasSuffix ev.author "[bot]" = false)
    (hc1 : slashCommand ev.body ≠ "/create-branch")
    (hc2 : slashCommand ev.body ≠ "/create-pr")
    (hc3 : slashCommand ev.body ≠ "/testpr") :
    ((Handle pre eT dI now (some ev) gw).calls =
      [GCall.createComment ev.repoOwner ev.repoName ev.prNum
        (ackMsg pre ev.author ev.body (slashCommand ev.body))])
    ∧ ((HandlePart000 pre eT dI now (some ev) gw).calls =
      [GCall.createComment ev.repoOwner ev.repoName ev.prNum
        (ackMsg pre ev.author ev.body (slashCommand ev.body))])
    ∧ ((HandleV1 pre eT dI now (some ev) gw).calls =
      [GCall.createComment ev.repoOwner ev.repoName ev.prNum
        (ackMsg pre ev.author ev.body (slashCommand ev.body))])
    ∧ (∀ c ∈ (Handle pre eT dI now (some ev) gw).calls, isRepoMutation c = false) := by
  have hM := handleWith_accepted dispatchMain pre eT dI now ev gw hact hcli hbot
  have hP := handleWith_accepted dispatchPart000 pre eT dI now ev gw hact hcli hbot
  have hV := handleWith_accepted dispatchV1 pre eT dI now ev gw hact hcli hbot
  have dM : dispatchMain (slashCommand ev.body) ev.repoOwner ev.repoName ev.prNum gw =
      ⟨.ok, [], []⟩ := by
    rw [dispatchMain, if_neg hc1, if_neg hc2]
  have dP : dispatchPart000 (slashCommand ev.body) ev.repoOwner ev.repoName ev.prNum gw =
      ⟨.ok, [], []⟩ := by
    rw [dispatchPart000, if_neg hc1, if_neg hc3]
  have dV : dispatchV1 (slashCommand ev.body) ev.repoOwner ev.repoName ev.prNum gw =
      ⟨.ok, [], []⟩ := by
    rw [dispatchV1, if_neg hc3]
  refine ⟨?_, ?_, ?_, ?_⟩
  · rw [Handle, hM, dM]
  · rw [HandlePart000, hP, dP]
  · rw [HandleV1, hV, dV]
  · intro c hc
    rw [Handle, hM, dM] at hc
    dsimp only at hc
    rw [List.mem_singleton.mp hc]
    rfl

/-- Witness for C9 at the token `/Create-branch` (capital C), which matches
no recognized literal. -/
theorem unrecognized_command_only_ack_witness :
    (Handle "p" "" "" 0 (some evUnknown) gwOK).calls =
      [GCall.createComment "o" "r" 1 (ackMsg "p" "alice" "/Create-branch" "/Create-branch")] :=
  (unrecognized_command_only_ack "p" "" "" 0 evUnknown gwOK rfl rfl (by decide)
    (by decide) (by decide) (by decide)).1

/-- Claim C5 evaluation: when `PullRequests.Create` fails in the `/testpr`
block, the Go code logs the error but, missing a `return`, goes on to
dereference `*newPR.Number` on the nil result — a panic escapes the handler
(`.panicked`).  The `/create-pr` block of the main variant, by contrast,
short-circuits and returns success. -/
theorem testpr_failure_panics :
    HandlePart000 "p" "" "" 0 (some evTestpr) gwPRFail =
      ⟨.panicked,
       [GCall.createComment "o" "r" 1 (ackMsg "p" "alice" "/testpr" "/testpr"),
        GCall.createPR "o" "r" ⟨"First PR", "pr-branch", "main", "This is a PR created by a bot"⟩],
       [("Failed to create pull request", "boom")]⟩
    ∧ HandleV1 "p" "" "" 0 (some evTestpr) gwPRFail =
      ⟨.panicked,
       [GCall.createComment "o" "r" 1 (ackMsg "p" "alice" "/testpr" "/testpr"),
        GCall.createPR "o" "r" ⟨"First PR", "pr-branch", "main", "This is a PR created by a bot"⟩],
       [("Failed to create pull request", "boom")]⟩
    ∧ Handle "p" "" "" 0 (some evCPR) gwPRFail =
      ⟨.ok,
       [GCall.createComment "o" "r" 1 (ackMsg "p" "alice" "/create-pr" "/create-pr"),
        GCall.createPR "o" "r" ⟨"PR created by bot", "my-bot-PR-branch", "main",
          "Please, merge the content of this PR :rocket:"⟩],
       [("Failed to create pull request", "boom")]⟩ := by
  refine ⟨by decide, by decide, by decide⟩

/-- Claim C10: the handlers are deterministic functions of the payload and
the gateway responses; in particular the result is independent of the
ambient wall clock (`now`) and of the event-type/delivery-id strings — the
code reads no clock and uses no randomness. -/
theorem handle_deterministic_no_clock (pre eT1 dI1 eT2 dI2 : String)
    (now1 now2 : Nat) (payload : Option IssueCommentEvent) (gw : Gateway) :
    Handle pre eT1 dI1 now1 payload gw = Handle pre eT2 dI2 now2 payload gw
    ∧ HandlePart000 pre eT1 dI1 now1 payload gw = HandlePart000 pre eT2 dI2 now2 payload gw
    ∧ HandleV1 pre eT1 dI1 now1 payload gw = HandleV1 pre eT2 dI2 now2 payload gw :=
  ⟨rfl, rfl, rfl⟩

/-- Claim C2: the classifier is total and returns exactly the maximal
prefix of the comment text matching the start-anchored pattern (slash, one
or more word characters, then hyphen-word groups) when one exists — so
trailing text is ignored and hyphenated continuations are included — and
the sentinel `"None"` otherwise; in particular any text not beginning with
`/` (even one containing `/` later) yields the sentinel. -/
theorem classifier_matches_anchored_pattern (body : String) :
    ((∀ p : List Char, p <+: body.data → ¬ IsCmdToken p) → slashCommand body = "None")
    ∧ (∀ p : List Char, p <+: body.data → IsCmdToken p →
        IsCmdToken (slashCommand body).data
        ∧ (slashCommand body).data <+: body.data
        ∧ p.length ≤ (slashCommand body).data.length)
    ∧ (∀ c, body.data.head? = some c → c ≠ '/' → slashCommand body = "None")
    ∧ (body.data = [] → slashCommand body = "None") := by
  refine ⟨?_, ?_, ?_, ?_⟩
  · intro hno
    cases hf : findCmd body.data with
    | none => simp [slashCommand, hf]
    | some m =>
      obtain ⟨htok, hpre⟩ := findCmd_sound hf
      exact absurd (shape_of_isTok htok) (hno m hpre)
  · intro p hp htok
    cases hf : findCmd body.data with
    | none =>
      have := findCmd_none hf p hp
      rw [isTok_of_shape htok] at this
      exact absurd this (by simp)
    | some m =>
      obtain ⟨htokm, hprem⟩ := findCmd_sound hf
      have hm : (slashCommand body).data = m := by simp [slashCommand, hf]
      refine ⟨?_, ?_, ?_⟩
      · rw [hm]; exact shape_of_isTok htokm
      · rw [hm]; exact hprem
      · rw [hm]; exact findCmd_max hf p hp (isTok_of_shape htok)
  · intro c hc hslash
    cases hd : body.data with
    | nil => simp [hd] at hc
    | cons x t =>
      rw [hd] at hc
      simp only [List.head?_cons, Option.some.injEq] at hc
      subst hc
      simp [slashCommand, hd, findCmd, hslash]
  · intro hd
    simp [slashCommand, hd, findCmd]

/-- Witness for C2 on the spec's own examples. -/
theorem classifier_matches_anchored_pattern_witness :
    slashCommand "see /foo" = "None"
    ∧ slashCommand "/create-branch please" = "/create-branch"
    ∧ slashCommand "/create-branch-now" = "/create-branch-now" :=
  ⟨(classifier_matches_anchored_pattern "see /foo").2.2.1 's' (by decide) (by decide),
   by decide, by decide⟩

end GithubappBot
